import Mathlib

/-!
Verification of the "vctr" vector-tile content decoder
(Source/Scene/Vector3DTileContent.js).

The JavaScript is shallowly embedded:
- byte buffers are lists of naturals (each entry one byte, little-endian
  multi-byte reads, out-of-range reads modelled as 0);
- the parsed feature-table JSON object is a structure of optional fields
  (JSON parsing itself is out of scope, the structure is the output of
  JSON.parse as consumed by the decoder);
- machine integers use Nat/Int with explicit % 65536 where the code stores
  into a Uint16Array;
- code that throws (DeveloperError on bad magic or version, TypeError on a
  property access of undefined) is modelled with Except;
- GPU-side objects, bounding volumes and the ellipsoid conversion of point
  positions are out of scope per the specification; the decoded quantized
  integers and batch ids that feed them are kept.
-/

namespace Vctr

/-- Errors surfaced by the decoder.  The first three correspond to the
DeveloperError throws in the source (the spec FormatError taxonomy); the
typeError case models the JavaScript TypeError raised when the code reads a
property such as byteOffset off an undefined feature-table entry. -/
inductive DecodeError
  | invalidMagic (magic : String)
  | unsupportedVersion (version : Nat)
  | emptyFeatureTable
  | typeError
deriving DecidableEq

/-- One little-endian uint32 read (DataView.getUint32 with littleEndian). -/
def getUint32 (bytes : List Nat) (byteOffset : Nat) : Nat :=
  bytes.getD byteOffset 0 + 256 * bytes.getD (byteOffset + 1) 0 +
    65536 * bytes.getD (byteOffset + 2) 0 + 16777216 * bytes.getD (byteOffset + 3) 0

/-- Modelled from the spec: Core/getMagic (not under src/) reads the 4-byte
magic token at the head of the tile as a string. -/
def getMagic (bytes : List Nat) (byteOffset : Nat) : String :=
  String.mk (((bytes.drop byteOffset).take 4).map Char.ofNat)

/-- A Uint16Array view of n elements starting at a byte offset (little-endian). -/
def readUint16Array (bytes : List Nat) (byteOffset n : Nat) : List Nat :=
  (List.range n).map (fun i =>
    bytes.getD (byteOffset + 2 * i) 0 + 256 * bytes.getD (byteOffset + 2 * i + 1) 0)

/-- A Uint32Array view of n elements starting at a byte offset (little-endian).
Float32Array reads (polygon per-feature heights) are kept as their raw 32-bit
words: their IEEE-754 interpretation is never needed by the claims. -/
def readUint32Array (bytes : List Nat) (byteOffset n : Nat) : List Nat :=
  (List.range n).map (fun i => getUint32 bytes (byteOffset + 4 * i))

/-- A {byteOffset} reference into the feature-table binary segment. -/
structure BinaryBodyReference where
  byteOffset : Nat
deriving DecidableEq

/-- Rectangle (west, south, east, north) in radians, kept exact as rationals. -/
structure Rect where
  west : ℚ
  south : ℚ
  east : ℚ
  north : ℚ
deriving DecidableEq

/-- A Cartesian3 value, kept exact as rationals. -/
structure Cart3 where
  x : ℚ
  y : ℚ
  z : ℚ
deriving DecidableEq

/-- The feature-table JSON object as consumed by initialize: every recognized
key, each optional.  A missing key is none (undefined in JavaScript). -/
structure FeatureTableJson where
  POLYGONS_LENGTH : Option Nat := none
  POLYLINES_LENGTH : Option Nat := none
  POINTS_LENGTH : Option Nat := none
  RTC_CENTER : Option Cart3 := none
  RECTANGLE : Option Rect := none
  MINIMUM_HEIGHT : Option ℚ := none
  MAXIMUM_HEIGHT : Option ℚ := none
  FORMAT : Option Nat := none
  POLYGON_BATCH_IDS : Option BinaryBodyReference := none
  POLYLINE_BATCH_IDS : Option BinaryBodyReference := none
  POINT_BATCH_IDS : Option BinaryBodyReference := none
  POLYGON_COUNT : Option BinaryBodyReference := none
  POLYGON_INDEX_COUNT : Option BinaryBodyReference := none
  POLYGON_MINIMUM_HEIGHTS : Option BinaryBodyReference := none
  POLYGON_MAXIMUM_HEIGHTS : Option BinaryBodyReference := none
  POLYLINE_COUNT : Option BinaryBodyReference := none
  POLYLINE_WIDTHS : Option BinaryBodyReference := none
deriving DecidableEq

/-- The Cesium3DTileBatchTable collaborator, kept at its interface boundary:
it is constructed with totalPrimitives and reports it as featuresLength. -/
structure BatchTable where
  featuresLength : Nat
deriving DecidableEq

/-- The argument record handed to the Vector3DTilePolygons builder
(GPU/bounding-volume/pick fields out of scope). -/
structure Polygons where
  positions : List Nat
  counts : List Nat
  indexCounts : List Nat
  indices : List Nat
  minimumHeight : Option ℚ
  maximumHeight : Option ℚ
  polygonMinimumHeights : Option (List Nat)
  polygonMaximumHeights : Option (List Nat)
  center : Cart3
  rectangle : Rect
  batchIds : Option (List Nat)
  isCartographic : Bool
deriving DecidableEq

/-- The argument record handed to the Vector3DTilePolylines builder. -/
structure Polylines where
  positions : List Nat
  widths : List ℚ
  counts : List Nat
  batchIds : Option (List Nat)
  minimumHeight : Option ℚ
  maximumHeight : Option ℚ
  center : Cart3
  rectangle : Rect
deriving DecidableEq

/-- One decoded point: the zig-zag-delta-decoded quantized coordinates and the
batch id tagged onto the billboard/label records (the ellipsoid conversion to
a world position is out of scope). -/
structure PointRecord where
  u : Nat
  v : Nat
  height : Nat
  batchIndex : Nat
deriving DecidableEq

/-- The fields of a Vector3DTileContent instance that the claims observe.
readyResolved models whether content._readyPromise has been resolved;
destroyed models the flag destroyObject (Core, not under src/) sets. -/
structure ContentState where
  polygons : Option Polygons
  polylines : Option Polylines
  billboardCollection : Option (List PointRecord)
  labelCollection : Option (List PointRecord)
  polylineCollection : Option Nat
  batchTable : Option BatchTable
  readyResolved : Bool
  destroyed : Bool
deriving DecidableEq

/-- The constructor's field initialization (lines 64-86): everything
undefined, the ready promise pending, not destroyed. -/
def initialState : ContentState :=
  { polygons := none, polylines := none, billboardCollection := none,
    labelCollection := none, polylineCollection := none, batchTable := none,
    readyResolved := false, destroyed := false }

/-- The state after the byteLength == 0 early return: the ready promise is
resolved and nothing was allocated. -/
def emptyReadyState : ContentState :=
  { initialState with readyResolved := true }

/-- featuresLength getter: batchTable.featuresLength, or 0 while the batch
table is undefined. -/
def featuresLength (content : ContentState) : Nat :=
  match content.batchTable with
  | some bt => bt.featuresLength
  | none => 0

/-- pointsLength getter: the source returns the constant 0. -/
def pointsLength (_content : ContentState) : Nat :=
  0

/-- Modelled from the spec: AttributeCompression.zigZagDecode (Core, not under
src/), delta = (x >> 1) XOR -(x & 1).  For even x the mask -(x & 1) is 0 and
the result is x >> 1; for odd x the mask is -1 and XOR with -1 is bitwise
complement, i.e. -(x >> 1) - 1. -/
def zigZagDecode (x : Nat) : Int :=
  if x % 2 = 0 then ((x / 2 : Nat) : Int) else -((x / 2 : Nat) : Int) - 1

/-- Modelled from the spec: the running-sum half of
AttributeCompression.zigZagDeltaDecode for one array.  acc is the JavaScript
accumulator variable (a plain number); each store into the Uint16Array wraps
modulo 2^16. -/
def zigZagDeltaDecodeAux (acc : Int) : List Nat → List Nat
  | [] => []
  | x :: xs =>
      let acc2 := acc + zigZagDecode x
      (acc2 % 65536).toNat :: zigZagDeltaDecodeAux acc2 xs

/-- Decoding of one zig-zag-delta-encoded array, accumulator starting at 0. -/
def zigZagDeltaDecodeList (xs : List Nat) : List Nat :=
  zigZagDeltaDecodeAux 0 xs

/-- Modelled from the spec: AttributeCompression.zigZagDeltaDecode on the
three parallel u/v/height arrays, each decoded independently in index order. -/
def zigZagDeltaDecode3 (t : List Nat × List Nat × List Nat) :
    List Nat × List Nat × List Nat :=
  (zigZagDeltaDecodeList t.1, zigZagDeltaDecodeList t.2.1, zigZagDeltaDecodeList t.2.2)

/-- The encoder side named by the round-trip claim: zig-zag of a signed
delta (2d for d ≥ 0, -2d - 1 for d < 0). -/
def zigZagEncode (d : Int) : Nat :=
  (if 0 ≤ d then 2 * d else -(2 * d) - 1).toNat

/-- Delta-then-zig-zag encoding of a list of absolute values, previous
value starting at 0. -/
def deltaZigZagEncodeAux (prev : Int) : List Nat → List Nat
  | [] => []
  | a :: as => zigZagEncode ((a : Int) - prev) :: deltaZigZagEncodeAux (a : Int) as

/-- Delta-then-zig-zag encoding of one array of absolute quantized values. -/
def deltaZigZagEncodeList (as : List Nat) : List Nat :=
  deltaZigZagEncodeAux 0 as

/-- Delta-then-zig-zag encoding of the three parallel u/v/height arrays. -/
def deltaZigZagEncode3 (us vs hs : List Nat) : List Nat × List Nat × List Nat :=
  (deltaZigZagEncodeList us, deltaZigZagEncodeList vs, deltaZigZagEncodeList hs)

/-- Lines 331-344: per type, when the count is positive and the feature table
declares a BATCH_IDS reference, a Uint16Array of that count is viewed at the
declared byte offset into the feature-table binary; otherwise the ids stay
undefined. -/
def extractBatchIds (ft : FeatureTableJson) (featureTableBinary : List Nat)
    (numberOfPolygons numberOfPolylines numberOfPoints : Nat) :
    Option (List Nat) × Option (List Nat) × Option (List Nat) :=
  ( if 0 < numberOfPolygons then
      ft.POLYGON_BATCH_IDS.map (fun r => readUint16Array featureTableBinary r.byteOffset numberOfPolygons)
    else none,
    if 0 < numberOfPolylines then
      ft.POLYLINE_BATCH_IDS.map (fun r => readUint16Array featureTableBinary r.byteOffset numberOfPolylines)
    else none,
    if 0 < numberOfPoints then
      ft.POINT_BATCH_IDS.map (fun r => readUint16Array featureTableBinary r.byteOffset numberOfPoints)
    else none )

/-- Sequential ids start, start+1, ... written through a Uint16Array, so each
stored value wraps modulo 2^16. -/
def synthesizeIds (start : Int) (n : Nat) : List Nat :=
  (List.range n).map (fun i : Nat => ((start + (i : Int)) % 65536).toNat)

/-- Lines 331-389: extract explicit batch ids, and only when no type supplied
any, synthesize sequential ids from a running counter.  The counter starts at
maxId + 1 where maxId folds max over every present id array starting from -1
(inside this branch all three are undefined, so those folds are the source's
dead code and the counter starts at 0). -/
def computeBatchIds (ft : FeatureTableJson) (featureTableBinary : List Nat)
    (numberOfPolygons numberOfPolylines numberOfPoints : Nat) :
    Option (List Nat) × Option (List Nat) × Option (List Nat) :=
  let e := extractBatchIds ft featureTableBinary numberOfPolygons numberOfPolylines numberOfPoints
  let polygonBatchIds := e.1
  let polylineBatchIds := e.2.1
  let pointBatchIds := e.2.2
  if polygonBatchIds = none ∧ polylineBatchIds = none ∧ pointBatchIds = none then
    let maxId : Int := -1
    let maxId := match polygonBatchIds with
      | some ids => ids.foldl (fun m x => max m (x : Int)) maxId
      | none => maxId
    let maxId := match polylineBatchIds with
      | some ids => ids.foldl (fun m x => max m (x : Int)) maxId
      | none => maxId
    let maxId := match pointBatchIds with
      | some ids => ids.foldl (fun m x => max m (x : Int)) maxId
      | none => maxId
    let maxId := maxId + 1
    let step1 :=
      if polygonBatchIds = none ∧ 0 < numberOfPolygons then
        (some (synthesizeIds maxId numberOfPolygons), maxId + numberOfPolygons)
      else (polygonBatchIds, maxId)
    let step2 :=
      if polylineBatchIds = none ∧ 0 < numberOfPolylines then
        (some (synthesizeIds step1.2 numberOfPolylines), step1.2 + numberOfPolylines)
      else (polylineBatchIds, step1.2)
    let step3 :=
      if pointBatchIds = none ∧ 0 < numberOfPoints then
        (some (synthesizeIds step2.2 numberOfPoints), step2.2 + numberOfPoints)
      else (pointBatchIds, step2.2)
    (step1.1, step2.1, step3.1)
  else
    e

/-- Lines 396-437: the polygon block.  Slices the index and position buffers,
requires POLYGON_COUNT and POLYGON_INDEX_COUNT (reading byteOffset off an
undefined entry is a TypeError), optionally views the per-polygon height
arrays, and returns the builder arguments with the advanced byte offset. -/
def buildPolygons (ft : FeatureTableJson) (featureTableBinary bytes : List Nat)
    (byteOffset indicesByteLength positionByteLength : Nat)
    (batchIds : Option (List Nat)) (minHeight maxHeight : Option ℚ)
    (center : Cart3) (rectangle : Rect) (isCartographic : Bool)
    (numberOfPolygons : Nat) : Except DecodeError (Option Polygons × Nat) :=
  if 0 < numberOfPolygons then
    let indices := readUint32Array bytes byteOffset (indicesByteLength / 4)
    let byteOffset := byteOffset + indicesByteLength
    let polygonPositions := readUint16Array bytes byteOffset (positionByteLength / 2)
    let byteOffset := byteOffset + positionByteLength
    match ft.POLYGON_COUNT, ft.POLYGON_INDEX_COUNT with
    | some countRef, some indexCountRef =>
        let counts := readUint32Array featureTableBinary countRef.byteOffset numberOfPolygons
        let indexCounts := readUint32Array featureTableBinary indexCountRef.byteOffset numberOfPolygons
        let polygonMinimumHeights :=
          match ft.POLYGON_MINIMUM_HEIGHTS, ft.POLYGON_MAXIMUM_HEIGHTS with
          | some minRef, some _ => some (readUint32Array featureTableBinary minRef.byteOffset numberOfPolygons)
          | _, _ => none
        let polygonMaximumHeights :=
          match ft.POLYGON_MINIMUM_HEIGHTS, ft.POLYGON_MAXIMUM_HEIGHTS with
          | some _, some maxRef => some (readUint32Array featureTableBinary maxRef.byteOffset numberOfPolygons)
          | _, _ => none
        .ok (some { positions := polygonPositions, counts := counts,
                    indexCounts := indexCounts, indices := indices,
                    minimumHeight := minHeight, maximumHeight := maxHeight,
                    polygonMinimumHeights := polygonMinimumHeights,
                    polygonMaximumHeights := polygonMaximumHeights,
                    center := center, rectangle := rectangle,
                    batchIds := batchIds, isCartographic := isCartographic },
             byteOffset)
    | _, _ => .error .typeError
  else .ok (none, byteOffset)

/-- Lines 439-469: the polyline block.  Slices the position buffer, requires
POLYLINE_COUNT, and when POLYLINE_WIDTHS is absent fills a width array of
length numberOfPolylines with the constant 2.0 (a documented fallback, not an
error); otherwise views the declared Uint16Array. -/
def buildPolylines (ft : FeatureTableJson) (featureTableBinary bytes : List Nat)
    (byteOffset polylinePositionByteLength : Nat)
    (batchIds : Option (List Nat)) (minHeight maxHeight : Option ℚ)
    (center : Cart3) (rectangle : Rect)
    (numberOfPolylines : Nat) : Except DecodeError (Option Polylines × Nat) :=
  if 0 < numberOfPolylines then
    let polylinePositions := readUint16Array bytes byteOffset (polylinePositionByteLength / 2)
    let byteOffset := byteOffset + polylinePositionByteLength
    match ft.POLYLINE_COUNT with
    | some countRef =>
        let polylineCounts := readUint32Array featureTableBinary countRef.byteOffset numberOfPolylines
        let widths : List ℚ :=
          match ft.POLYLINE_WIDTHS with
          | none => List.replicate numberOfPolylines 2
          | some widthRef =>
              (readUint16Array featureTableBinary widthRef.byteOffset numberOfPolylines).map
                (fun w => (w : ℚ))
        .ok (some { positions := polylinePositions, widths := widths,
                    counts := polylineCounts, batchIds := batchIds,
                    minimumHeight := minHeight, maximumHeight := maxHeight,
                    center := center, rectangle := rectangle },
             byteOffset)
    | none => .error .typeError
  else .ok (none, byteOffset)

/-- Lines 471-514: the point block.  Splits the position buffer into the
three contiguous u/v/height sub-arrays, zig-zag-delta decodes them, and adds
one billboard/label record per point tagged with pointBatchIds[i]; indexing an
undefined pointBatchIds is a TypeError. -/
def buildPoints (bytes : List Nat) (byteOffset pointsPositionByteLength : Nat)
    (pointBatchIds : Option (List Nat)) (numberOfPoints : Nat) :
    Except DecodeError (Option (List PointRecord)) :=
  if 0 < numberOfPoints then
    let pointPositions := readUint16Array bytes byteOffset (pointsPositionByteLength / 2)
    let uBuffer := zigZagDeltaDecodeList (pointPositions.take numberOfPoints)
    let vBuffer := zigZagDeltaDecodeList ((pointPositions.drop numberOfPoints).take numberOfPoints)
    let heightBuffer := zigZagDeltaDecodeList ((pointPositions.drop (2 * numberOfPoints)).take numberOfPoints)
    match pointBatchIds with
    | none => .error .typeError
    | some pids =>
        .ok (some ((List.range numberOfPoints).map (fun i =>
          { u := uBuffer.getD i 0, v := vBuffer.getD i 0,
            height := heightBuffer.getD i 0, batchIndex := pids.getD i 0 })))
  else .ok none

/-- The body of initialize after the magic and version checks (lines
234-514): byteLength == 0 is a valid empty tile, a zero-length feature-table
JSON throws, the section lengths drive the slicing cursor, the batch table is
sized by the sum of the three counts, and the three primitive blocks run in
order polygons, polylines, points. -/
def initContentBody (bytes : List Nat) (byteOffset0 : Nat) (ftJson : FeatureTableJson)
    (tileRectangle : Rect) : Except DecodeError ContentState :=
  let byteLength := getUint32 bytes (byteOffset0 + 8)
  if byteLength = 0 then .ok emptyReadyState
  else
    let featureTableJSONByteLength := getUint32 bytes (byteOffset0 + 12)
    if featureTableJSONByteLength = 0 then .error .emptyFeatureTable
    else
      let featureTableBinaryByteLength := getUint32 bytes (byteOffset0 + 16)
      let batchTableJSONByteLength := getUint32 bytes (byteOffset0 + 20)
      let batchTableBinaryByteLength := getUint32 bytes (byteOffset0 + 24)
      let indicesByteLength := getUint32 bytes (byteOffset0 + 28)
      let positionByteLength := getUint32 bytes (byteOffset0 + 32)
      let polylinePositionByteLength := getUint32 bytes (byteOffset0 + 36)
      let pointsPositionByteLength := getUint32 bytes (byteOffset0 + 40)
      let byteOffset1 := byteOffset0 + 44 + featureTableJSONByteLength
      let featureTableBinary := (bytes.drop byteOffset1).take featureTableBinaryByteLength
      let byteOffset2 := byteOffset1 + featureTableBinaryByteLength
      let byteOffset3 :=
        if 0 < batchTableJSONByteLength then
          byteOffset2 + batchTableJSONByteLength +
            (if 0 < batchTableBinaryByteLength then batchTableBinaryByteLength else 0)
        else byteOffset2
      let numberOfPolygons := ftJson.POLYGONS_LENGTH.getD 0
      let numberOfPolylines := ftJson.POLYLINES_LENGTH.getD 0
      let numberOfPoints := ftJson.POINTS_LENGTH.getD 0
      let totalPrimitives := numberOfPolygons + numberOfPolylines + numberOfPoints
      let batchTable : BatchTable := { featuresLength := totalPrimitives }
      if totalPrimitives = 0 then
        .ok { initialState with batchTable := some batchTable }
      else
        let center := ftJson.RTC_CENTER.getD { x := 0, y := 0, z := 0 }
        let rectangle := ftJson.RECTANGLE.getD tileRectangle
        let minHeight := ftJson.MINIMUM_HEIGHT
        let maxHeight := ftJson.MAXIMUM_HEIGHT
        let format := ftJson.FORMAT.getD 0
        let isCartographic := format = 0
        let ids := computeBatchIds ftJson featureTableBinary numberOfPolygons numberOfPolylines numberOfPoints
        match buildPolygons ftJson featureTableBinary bytes byteOffset3 indicesByteLength
            positionByteLength ids.1 minHeight maxHeight center rectangle isCartographic
            numberOfPolygons with
        | .error e => .error e
        | .ok (polygons, byteOffset4) =>
          match buildPolylines ftJson featureTableBinary bytes byteOffset4
              polylinePositionByteLength ids.2.1 minHeight maxHeight center rectangle
              numberOfPolylines with
          | .error e => .error e
          | .ok (polylines, byteOffset5) =>
            match buildPoints bytes byteOffset5 pointsPositionByteLength ids.2.2 numberOfPoints with
            | .error e => .error e
            | .ok points =>
              .ok { polygons := polygons, polylines := polylines,
                    billboardCollection := points, labelCollection := points,
                    polylineCollection := points.map List.length,
                    batchTable := some batchTable,
                    readyResolved := false, destroyed := false }

/-- The initialize function called from the constructor (lines 214-515):
validate the 4-byte magic, then the version, then decode the body.
An error here propagates out of the constructor as a throw. -/
def initContent (bytes : List Nat) (byteOffset0 : Nat) (ftJson : FeatureTableJson)
    (tileRectangle : Rect) : Except DecodeError ContentState :=
  let magic := getMagic bytes byteOffset0
  if magic ≠ "vctr" then .error (.invalidMagic magic)
  else
    let version := getUint32 bytes (byteOffset0 + 4)
    if version ≠ 1 then .error (.unsupportedVersion version)
    else initContentBody bytes byteOffset0 ftJson tileRectangle

/-- RGBA color, kept exact as rationals. -/
structure Color where
  red : ℚ
  green : ℚ
  blue : ℚ
  alpha : ℚ
deriving DecidableEq

/-- Core/Color.WHITE. -/
def Color.WHITE : Color := { red := 1, green := 1, blue := 1, alpha := 1 }

/-- Core/Color.BLACK. -/
def Color.BLACK : Color := { red := 0, green := 0, blue := 0, alpha := 1 }

/-- Scene/LabelStyle enumeration. -/
inductive LabelStyle
  | FILL
  | OUTLINE
  | FILL_AND_OUTLINE
deriving DecidableEq

/-- Core/NearFarScalar built from a Cartesian4 (x, y, z, w). -/
structure NearFarScalar where
  near : ℚ
  nearValue : ℚ
  far : ℚ
  farValue : ℚ
deriving DecidableEq

/-- A Cartesian4 returned by a scale/translucency style evaluator. -/
structure Cartesian4 where
  x : ℚ
  y : ℚ
  z : ℚ
  w : ℚ
deriving DecidableEq

/-- A Cartesian2 returned by a distance-display-condition or padding
evaluator. -/
structure Cartesian2 where
  x : ℚ
  y : ℚ
deriving DecidableEq

/-- Core/DistanceDisplayCondition built from a Cartesian2 (x, y). -/
structure DistanceDisplayCondition where
  near : ℚ
  far : ℚ
deriving DecidableEq

/-- The frame context forwarded to every style evaluator; its content is
opaque to this component. -/
structure FrameState where
  frameNumber : Nat := 0
deriving DecidableEq

/-- The style-writable properties of a Cesium3DTileFeature facade.  JavaScript
objects accept assignments to any name, so the two misspelled targets the
source writes to (scaleBydistance in the else-branch of scale-by-distance,
distanceDisplatCondition in the then-branch of distance-display-condition)
are distinct properties of their own, next to the correctly spelled ones. -/
structure Feature where
  show_ : Bool
  color : Color
  pointSize : ℚ
  pointColor : Color
  pointOutlineColor : Color
  pointOutlineWidth : ℚ
  labelOutlineColor : Color
  labelOutlineWidth : ℚ
  font : String
  labelStyle : LabelStyle
  labelText : Option String
  backgroundColor : Option Color
  backgroundPadding : Option Cartesian2
  backgroundEnabled : Bool
  scaleByDistance : Option NearFarScalar
  scaleBydistance : Option NearFarScalar
  translucencyByDistance : Option NearFarScalar
  distanceDisplayCondition : Option DistanceDisplayCondition
  distanceDisplatCondition : Option DistanceDisplayCondition
  heightOffset : ℚ
  anchorLineEnabled : Bool
  anchorLineColor : Color
  image : Option String
deriving DecidableEq

/-- A Cesium3DTileStyle as consumed by applyStyle: one evaluator per visual
property (evaluate / evaluateColor collaborator capability), the optional
ones modelled as Option. -/
structure Style where
  color : FrameState → Feature → Color
  show_ : FrameState → Feature → Bool
  pointSize : FrameState → Feature → ℚ
  pointColor : FrameState → Feature → Color
  pointOutlineColor : FrameState → Feature → Color
  pointOutlineWidth : FrameState → Feature → ℚ
  labelOutlineColor : FrameState → Feature → Color
  labelOutlineWidth : FrameState → Feature → ℚ
  font : FrameState → Feature → String
  labelStyle : FrameState → Feature → LabelStyle
  labelText : Option (FrameState → Feature → String)
  backgroundColor : Option (FrameState → Feature → Color)
  backgroundPadding : Option (FrameState → Feature → Cartesian2)
  backgroundEnabled : FrameState → Feature → Bool
  scaleByDistance : Option (FrameState → Feature → Cartesian4)
  translucencyByDistance : Option (FrameState → Feature → Cartesian4)
  distanceDisplayCondition : Option (FrameState → Feature → Cartesian2)
  heightOffset : FrameState → Feature → ℚ
  anchorLineEnabled : FrameState → Feature → Bool
  anchorLineColor : FrameState → Feature → Color
  image : Option (FrameState → Feature → String)

/-- clearStyle's per-feature body (lines 577-599): reset every listed
property to its documented default.  The final _setBillboardImage call is a
rendering refresh with no effect on these properties. -/
def clearStyleFeature (feature : Feature) : Feature :=
  { feature with
    show_ := true
    color := Color.WHITE
    pointSize := 8
    pointColor := Color.WHITE
    pointOutlineColor := Color.BLACK
    pointOutlineWidth := 0
    labelOutlineColor := Color.WHITE
    labelOutlineWidth := 1
    font := "30px sans-serif"
    labelStyle := LabelStyle.FILL
    labelText := none
    backgroundColor := none
    backgroundPadding := none
    backgroundEnabled := false
    scaleByDistance := none
    translucencyByDistance := none
    distanceDisplayCondition := none
    heightOffset := 0
    anchorLineEnabled := false
    anchorLineColor := Color.WHITE
    image := none }

set_option maxHeartbeats 1000000 in
/-- applyStyle's per-feature body (lines 624-682), writes in source order;
each evaluator sees the feature as mutated by the preceding writes.  The two
misspelled assignment targets of the source are reproduced as written:
line 655 writes scaleBydistance, line 667 writes distanceDisplatCondition. -/
def applyStyleToFeature (frameState : FrameState) (style : Style) (feature0 : Feature) : Feature :=
  let feature : Feature := { feature0 with color := style.color frameState feature0 }
  let feature : Feature := { feature with show_ := style.show_ frameState feature }
  let feature : Feature := { feature with pointSize := style.pointSize frameState feature }
  let feature : Feature := { feature with pointColor := style.pointColor frameState feature }
  let feature : Feature := { feature with pointOutlineColor := style.pointOutlineColor frameState feature }
  let feature : Feature := { feature with pointOutlineWidth := style.pointOutlineWidth frameState feature }
  let feature : Feature := { feature with labelOutlineColor := style.labelOutlineColor frameState feature }
  let feature : Feature := { feature with labelOutlineWidth := style.labelOutlineWidth frameState feature }
  let feature : Feature := { feature with font := style.font frameState feature }
  let feature : Feature := { feature with labelStyle := style.labelStyle frameState feature }
  let feature : Feature :=
    match style.labelText with
    | some ev => { feature with labelText := some (ev frameState feature) }
    | none => { feature with labelText := none }
  let feature : Feature :=
    match style.backgroundColor with
    | some ev => { feature with backgroundColor := some (ev frameState feature) }
    | none => feature
  let feature : Feature :=
    match style.backgroundPadding with
    | some ev => { feature with backgroundPadding := some (ev frameState feature) }
    | none => feature
  let feature : Feature := { feature with backgroundEnabled := style.backgroundEnabled frameState feature }
  let feature : Feature :=
    match style.scaleByDistance with
    | some ev =>
        let c := ev frameState feature
        let nfs : NearFarScalar := { near := c.x, nearValue := c.y, far := c.z, farValue := c.w }
        { feature with scaleByDistance := some nfs }
    | none => { feature with scaleBydistance := none }
  let feature : Feature :=
    match style.translucencyByDistance with
    | some ev =>
        let c := ev frameState feature
        let nfs : NearFarScalar := { near := c.x, nearValue := c.y, far := c.z, farValue := c.w }
        { feature with translucencyByDistance := some nfs }
    | none => { feature with translucencyByDistance := none }
  let feature : Feature :=
    match style.distanceDisplayCondition with
    | some ev =>
        let c := ev frameState feature
        { feature with distanceDisplatCondition := some { near := c.x, far := c.y } }
    | none => { feature with distanceDisplayCondition := none }
  let feature : Feature := { feature with heightOffset := style.heightOffset frameState feature }
  let feature : Feature := { feature with anchorLineEnabled := style.anchorLineEnabled frameState feature }
  let feature : Feature := { feature with anchorLineColor := style.anchorLineColor frameState feature }
  let feature : Feature :=
    match style.image with
    | some ev => { feature with image := some (ev frameState feature) }
    | none => { feature with image := none }
  feature

/-- applyStyle (lines 613-684): with no style every feature is reset to the
defaults (clearStyle), otherwise every feature receives the evaluated style
writes.  The lazily materialized feature facades are the list elements. -/
def applyStyle (frameState : FrameState) (style : Option Style) (features : List Feature) :
    List Feature :=
  match style with
  | none => features.map clearStyleFeature
  | some s => features.map (applyStyleToFeature frameState s)

/-- destroy (lines 731-739): each owned member is destroyed and set to a
falsy value; destroyObject (Core, not under src/, modelled from the spec)
then marks the instance destroyed.  The function is total: destroying with
every member still undefined is safe. -/
def destroy (content : ContentState) : ContentState :=
  { content with
    polygons := none
    polylines := none
    billboardCollection := none
    labelCollection := none
    polylineCollection := none
    batchTable := none
    destroyed := true }

/-- isDestroyed: the prototype returns false; after destroy, destroyObject
(modelled from the spec) makes it return true.  Folded into one flag read. -/
def isDestroyed (content : ContentState) : Bool :=
  content.destroyed

/-- Decidable equality of decoder results, for evaluating the model on
concrete tiles. -/
instance {e a : Type} [DecidableEq e] [DecidableEq a] : DecidableEq (Except e a) :=
  fun x y =>
    match x, y with
    | .ok u, .ok v =>
        if h : u = v then .isTrue (by rw [h]) else .isFalse (fun hh => h (by cases hh; rfl))
    | .error u, .error v =>
        if h : u = v then .isTrue (by rw [h]) else .isFalse (fun hh => h (by cases hh; rfl))
    | .ok _, .error _ => .isFalse (fun hh => Except.noConfusion hh)
    | .error _, .ok _ => .isFalse (fun hh => Except.noConfusion hh)

/-- A feature table with every key absent. -/
def ftEmpty : FeatureTableJson := {}

/-- A degenerate tile rectangle used as the contentBoundingVolume fallback in
concrete runs. -/
def rect0 : Rect := { west := 0, south := 0, east := 0, north := 0 }

/-- A concrete frame context. -/
def fs0 : FrameState := {}

/-- A 12-byte buffer whose magic reads "xxxx". -/
def bytesBadMagic : List Nat :=
  [120, 120, 120, 120] ++ [1, 0, 0, 0] ++ [0, 0, 0, 0]

/-- A 12-byte buffer with magic "vctr" and version 2. -/
def bytesBadVersion : List Nat :=
  [118, 99, 116, 114] ++ [2, 0, 0, 0] ++ [0, 0, 0, 0]

/-- A 12-byte buffer with magic "vctr", version 1 and byteLength 0: a valid
empty tile. -/
def bytesEmptyTile : List Nat :=
  [118, 99, 116, 114] ++ [1, 0, 0, 0] ++ [0, 0, 0, 0]

/-- A feature table declaring only POINTS_LENGTH = 2. -/
def ftPoints : FeatureTableJson := { ftEmpty with POINTS_LENGTH := some 2 }

/-- A complete two-point tile: 44-byte header (byteLength 100, feature-table
JSON length 1, point positions 12 bytes), one JSON filler byte, then the
three zig-zag-delta-encoded Uint16 arrays u = v = height = [2, 2]. -/
def bytesPoints : List Nat :=
  [118, 99, 116, 114] ++ [1, 0, 0, 0] ++ [100, 0, 0, 0] ++ [1, 0, 0, 0] ++
  [0, 0, 0, 0] ++ [0, 0, 0, 0] ++ [0, 0, 0, 0] ++ [0, 0, 0, 0] ++ [0, 0, 0, 0] ++
  [0, 0, 0, 0] ++ [12, 0, 0, 0] ++ [0] ++ [2, 0, 2, 0, 4, 0, 4, 0, 6, 0, 6, 0]

/-- The content state decoded from bytesPoints: two billboard/label records
(u, v, height decoded to 1/2/3 and 2/4/6) with synthesized batch ids 0, 1. -/
def cPointsDemo : ContentState :=
  { polygons := none, polylines := none,
    billboardCollection := some [{ u := 1, v := 2, height := 3, batchIndex := 0 },
                                 { u := 2, v := 4, height := 6, batchIndex := 1 }],
    labelCollection := some [{ u := 1, v := 2, height := 3, batchIndex := 0 },
                             { u := 2, v := 4, height := 6, batchIndex := 1 }],
    polylineCollection := some 2, batchTable := some { featuresLength := 2 },
    readyResolved := false, destroyed := false }

/-- A feature table in which only polygons declare explicit batch ids. -/
def ftPolygonIdsOnly : FeatureTableJson := { ftEmpty with POLYGON_BATCH_IDS := some { byteOffset := 0 } }

/-- A feature table declaring a POLYLINE_COUNT reference and no
POLYLINE_WIDTHS. -/
def ftPolylineNoWidths : FeatureTableJson := { ftEmpty with POLYLINE_COUNT := some { byteOffset := 0 } }

/-- A live, not yet ready content state owning a polygon set and a batch
table. -/
def cLive : ContentState :=
  { initialState with
    polygons := some { positions := [], counts := [], indexCounts := [], indices := [],
                       minimumHeight := none, maximumHeight := none,
                       polygonMinimumHeights := none, polygonMaximumHeights := none,
                       center := { x := 0, y := 0, z := 0 }, rectangle := rect0,
                       batchIds := none, isCartographic := true }
    batchTable := some { featuresLength := 3 } }

/-- A feature facade holding non-default values on every property. -/
def featureDemo : Feature :=
  { show_ := false, color := Color.BLACK, pointSize := 3, pointColor := Color.BLACK,
    pointOutlineColor := Color.WHITE, pointOutlineWidth := 5,
    labelOutlineColor := Color.BLACK, labelOutlineWidth := 7, font := "monospace",
    labelStyle := LabelStyle.OUTLINE, labelText := some "t",
    backgroundColor := some Color.BLACK, backgroundPadding := some { x := 1, y := 1 },
    backgroundEnabled := true,
    scaleByDistance := some { near := 1, nearValue := 1, far := 1, farValue := 1 },
    scaleBydistance := none,
    translucencyByDistance := some { near := 1, nearValue := 1, far := 1, farValue := 1 },
    distanceDisplayCondition := none, distanceDisplatCondition := none,
    heightOffset := 4, anchorLineEnabled := true, anchorLineColor := Color.BLACK,
    image := some "img" }

/-- A style defining distanceDisplayCondition (evaluating to the Cartesian2
(10, 20) for every feature) next to constant required evaluators. -/
def ddcStyle : Style :=
  { color := fun _ _ => Color.BLACK, show_ := fun _ _ => true, pointSize := fun _ _ => 1,
    pointColor := fun _ _ => Color.BLACK, pointOutlineColor := fun _ _ => Color.BLACK,
    pointOutlineWidth := fun _ _ => 1, labelOutlineColor := fun _ _ => Color.BLACK,
    labelOutlineWidth := fun _ _ => 1, font := fun _ _ => "serif",
    labelStyle := fun _ _ => LabelStyle.FILL, labelText := none, backgroundColor := none,
    backgroundPadding := none, backgroundEnabled := fun _ _ => false,
    scaleByDistance := none, translucencyByDistance := none,
    distanceDisplayCondition := some (fun _ _ => { x := 10, y := 20 }),
    heightOffset := fun _ _ => 0, anchorLineEnabled := fun _ _ => false,
    anchorLineColor := fun _ _ => Color.BLACK, image := none }

/-- Decoding inverts encoding on one value: zig-zag then sign recovery. -/
theorem zigZagDecode_zigZagEncode (d : Int) : zigZagDecode (zigZagEncode d) = d := by
  unfold zigZagDecode zigZagEncode
  rcases le_or_lt 0 d with h | h
  · rw [if_pos h]
    have h2 : (((2 * d).toNat : Nat) : Int) = 2 * d := Int.toNat_of_nonneg (by omega)
    have he : (2 * d).toNat % 2 = 0 := by omega
    rw [if_pos he]
    omega
  · rw [if_neg (by omega : ¬ 0 ≤ d)]
    have h2 : (((-(2 * d) - 1).toNat : Nat) : Int) = -(2 * d) - 1 :=
      Int.toNat_of_nonneg (by omega)
    have he : ¬ (-(2 * d) - 1).toNat % 2 = 0 := by omega
    rw [if_neg he]
    omega

/-- Running-sum decoding inverts delta encoding from any shared starting
accumulator, as long as the absolute values fit one Uint16 store. -/
theorem zigZagDeltaDecodeAux_encodeAux (as : List Nat) :
    ∀ prev : Int, (∀ a ∈ as, a < 65536) →
      zigZagDeltaDecodeAux prev (deltaZigZagEncodeAux prev as) = as := by
  induction as with
  | nil => intro prev _; rfl
  | cons a as ih =>
      intro prev h
      have ha : a < 65536 := h a (List.mem_cons_self a as)
      simp only [deltaZigZagEncodeAux, zigZagDeltaDecodeAux, zigZagDecode_zigZagEncode]
      have hacc : prev + ((a : Int) - prev) = (a : Int) := by ring
      rw [hacc]
      have hmod : (((a : Int)) % 65536).toNat = a := by
        rw [Int.emod_eq_of_lt (Int.natCast_nonneg a) (by exact_mod_cast ha)]
        exact Int.toNat_natCast a
      rw [hmod, ih (a : Int) (fun x hx => h x (List.mem_cons_of_mem a hx))]

/-- Encoded deltas of quantized values (at most 32767) fit in a Uint16. -/
theorem deltaZigZagEncodeAux_lt (as : List Nat) :
    ∀ prev : Nat, prev ≤ 32767 → (∀ a ∈ as, a ≤ 32767) →
      ∀ x ∈ deltaZigZagEncodeAux (prev : Int) as, x < 65536 := by
  induction as with
  | nil => intro prev _ _ x hx; simp [deltaZigZagEncodeAux] at hx
  | cons a as ih =>
      intro prev h1 h2 x hx
      have ha : a ≤ 32767 := h2 a (List.mem_cons_self a as)
      simp only [deltaZigZagEncodeAux, List.mem_cons] at hx
      rcases hx with rfl | hx
      · unfold zigZagEncode
        rcases le_or_lt 0 ((a : Int) - prev) with hd | hd
        · rw [if_pos hd]; omega
        · rw [if_neg (by omega)]; omega
      · exact ih a ha (fun y hy => h2 y (List.mem_cons_of_mem a hy)) x hx

/-- Below 2^16 the Uint16 stores of the id counter do not wrap. -/
theorem synthesizeIds_eq (s n : Nat) (h : s + n ≤ 65536) :
    synthesizeIds (s : Int) n = (List.range n).map (fun i => s + i) := by
  unfold synthesizeIds
  apply List.map_congr_left
  intro i hi
  rw [List.mem_range] at hi
  have h1 : ((s : Int) + i) % 65536 = (s : Int) + i :=
    Int.emod_eq_of_lt (by positivity) (by omega)
  rw [h1]
  omega

/-- When no type supplied explicit ids, the synthesized components are the
counter runs starting at 0, numberOfPolygons and numberOfPolygons +
numberOfPolylines respectively. -/
theorem computeBatchIds_of_none (ft : FeatureTableJson) (bin : List Nat) (nP nL nPts : Nat)
    (hNone : extractBatchIds ft bin nP nL nPts = (none, none, none)) :
    computeBatchIds ft bin nP nL nPts =
      ( if 0 < nP then some (synthesizeIds 0 nP) else none,
        if 0 < nL then some (synthesizeIds (nP : Int) nL) else none,
        if 0 < nPts then some (synthesizeIds ((nP : Int) + nL) nPts) else none ) := by
  have h1 : (extractBatchIds ft bin nP nL nPts).1 = none := by rw [hNone]
  have h2 : (extractBatchIds ft bin nP nL nPts).2.1 = none := by rw [hNone]
  have h3 : (extractBatchIds ft bin nP nL nPts).2.2 = none := by rw [hNone]
  simp only [computeBatchIds, h1, h2, h3]
  norm_num
  refine ⟨by split <;> rfl, ?_, ?_⟩
  · rcases Nat.eq_zero_or_pos nP with rfl | hP <;> simp [*] <;> split <;> simp [*]
  · rcases Nat.eq_zero_or_pos nP with rfl | hP <;>
      rcases Nat.eq_zero_or_pos nL with rfl | hL <;>
      simp [*] <;> split <;> simp [*]

/-- C3 (amended): when no primitive type supplies an explicit batch-id array
and the total primitive count fits one Uint16 store (at most 65536), ids are
synthesized from a running counter starting at (max of any present id
values) + 1 = 0, sequentially over polygons, then polylines, then points, and
the synthesized ids are unique across the three types. -/
theorem c3_batchId_synthesis (ft : FeatureTableJson) (bin : List Nat) (nP nL nPts : Nat)
    (hNone : extractBatchIds ft bin nP nL nPts = (none, none, none))
    (hTot : nP + nL + nPts ≤ 65536) :
    computeBatchIds ft bin nP nL nPts =
      ( if 0 < nP then some (List.range nP) else none,
        if 0 < nL then some ((List.range nL).map (fun i => nP + i)) else none,
        if 0 < nPts then some ((List.range nPts).map (fun i => nP + nL + i)) else none ) ∧
    List.Nodup
      (((computeBatchIds ft bin nP nL nPts).1.getD []) ++
       ((computeBatchIds ft bin nP nL nPts).2.1.getD []) ++
       ((computeBatchIds ft bin nP nL nPts).2.2.getD [])) := by
  have hP : synthesizeIds ((0 : Nat) : Int) nP = (List.range nP).map (fun i => 0 + i) :=
    synthesizeIds_eq 0 nP (by omega)
  have hL : synthesizeIds (nP : Int) nL = (List.range nL).map (fun i => nP + i) :=
    synthesizeIds_eq nP nL (by omega)
  have hPts : synthesizeIds ((nP + nL : Nat) : Int) nPts =
      (List.range nPts).map (fun i => nP + nL + i) :=
    synthesizeIds_eq (nP + nL) nPts (by omega)
  have hP0 : synthesizeIds 0 nP = List.range nP := by
    rw [show ((0 : Nat) : Int) = (0 : Int) by norm_num] at hP
    simpa using hP
  have hmain : computeBatchIds ft bin nP nL nPts =
      ( if 0 < nP then some (List.range nP) else none,
        if 0 < nL then some ((List.range nL).map (fun i => nP + i)) else none,
        if 0 < nPts then some ((List.range nPts).map (fun i => nP + nL + i)) else none ) := by
    rw [computeBatchIds_of_none ft bin nP nL nPts hNone, hP0, hL]
    rw [show ((nP : Int) + nL) = ((nP + nL : Nat) : Int) by push_cast; ring, hPts]
  refine ⟨hmain, ?_⟩
  rw [hmain]
  have g1 : ∀ (n : Nat) (l : List Nat), ((if 0 < n then some l else none).getD []).length =
      if 0 < n then l.length else 0 := by
    intro n l; split <;> rfl
  have e1 : ((if 0 < nP then some (List.range nP) else none).getD []) = List.range nP := by
    rcases Nat.eq_zero_or_pos nP with rfl | h <;> simp [*]
  have e2 : ((if 0 < nL then some ((List.range nL).map (fun i => nP + i)) else none).getD []) =
      (List.range nL).map (fun i => nP + i) := by
    rcases Nat.eq_zero_or_pos nL with rfl | h <;> simp [*]
  have e3 : ((if 0 < nPts then some ((List.range nPts).map (fun i => nP + nL + i)) else none).getD []) =
      (List.range nPts).map (fun i => nP + nL + i) := by
    rcases Nat.eq_zero_or_pos nPts with rfl | h <;> simp [*]
  rw [e1, e2, e3]
  have hsplit : List.range nP ++ (List.range nL).map (fun i => nP + i) ++
      (List.range nPts).map (fun i => nP + nL + i) = List.range (nP + nL + nPts) := by
    rw [List.range_add (nP + nL) nPts, List.range_add nP nL, List.append_assoc]
  rw [hsplit]
  exact List.nodup_range _

/-- C3 witness: two polygons, one polyline, no points, no declared ids:
the synthesized ids are exactly 0 and 1 for the polygons and 2 for the
polyline. -/
theorem c3_batchId_synthesis_witness :
    extractBatchIds ftEmpty [] 2 1 0 = (none, none, none) ∧ 2 + 1 + 0 ≤ 65536 ∧
    computeBatchIds ftEmpty [] 2 1 0 = (some [0, 1], some [2], none) := by
  refine ⟨by decide, by decide, ?_⟩
  rw [(c3_batchId_synthesis ftEmpty [] 2 1 0 (by decide) (by decide)).1]
  decide

/-- C3 counterexample: a tile declaring 65537 polygons and no explicit batch
ids is inside the claim as stated, yet the ids stored through the Uint16Array
wrap modulo 2^16, so they are not unique: index 0 and index 65536 both hold
id 0. -/
theorem c3_counterexample :
    extractBatchIds ftEmpty [] 65537 0 0 = (none, none, none) ∧
    ¬ (((computeBatchIds ftEmpty [] 65537 0 0).1.getD []).Nodup) := by
  refine ⟨by decide, ?_⟩
  have hc : (computeBatchIds ftEmpty [] 65537 0 0).1 = some (synthesizeIds 0 65537) := by
    rw [computeBatchIds_of_none ftEmpty [] 65537 0 0 (by decide)]
    norm_num
  rw [hc, Option.getD_some]
  intro hnd
  have hlen : (synthesizeIds 0 65537).length = 65537 := by
    simp only [synthesizeIds, List.length_map, List.length_range]
  have hi0 : (0 : Nat) < (synthesizeIds 0 65537).length := by omega
  have hi1 : (65536 : Nat) < (synthesizeIds 0 65537).length := by omega
  have h0 : (synthesizeIds 0 65537).get ⟨0, hi0⟩ = 0 := by
    simp only [synthesizeIds, List.get_eq_getElem, List.getElem_map, List.getElem_range]
    decide
  have h1 : (synthesizeIds 0 65537).get ⟨65536, hi1⟩ = 0 := by
    simp only [synthesizeIds, List.get_eq_getElem, List.getElem_map, List.getElem_range]
    decide
  have hinj := List.nodup_iff_injective_get.mp hnd (h0.trans h1.symm)
  have : (0 : Nat) = 65536 := congrArg Fin.val hinj
  omega

/-- C4: when at least one primitive type supplies explicit batch ids, no
synthesis happens for any type: the computed ids are exactly the extracted
ones, so a type that omitted its array stays without ids. -/
theorem c4_no_partial_synthesis (ft : FeatureTableJson) (bin : List Nat) (nP nL nPts : Nat)
    (h : extractBatchIds ft bin nP nL nPts ≠ (none, none, none)) :
    computeBatchIds ft bin nP nL nPts = extractBatchIds ft bin nP nL nPts := by
  unfold computeBatchIds
  rw [if_neg]
  intro hc
  apply h
  obtain ⟨hc1, hc2, hc3⟩ := hc
  calc extractBatchIds ft bin nP nL nPts
      = ((extractBatchIds ft bin nP nL nPts).1,
         (extractBatchIds ft bin nP nL nPts).2.1,
         (extractBatchIds ft bin nP nL nPts).2.2) := rfl
    _ = (none, none, none) := by rw [hc1, hc2, hc3]

/-- C4 witness: one polygon with explicit id 7 from the binary segment and
two polylines without ids: no synthesis, the polylines stay without ids. -/
theorem c4_no_partial_synthesis_witness :
    extractBatchIds ftPolygonIdsOnly [7, 0] 1 2 0 ≠ (none, none, none) ∧
    computeBatchIds ftPolygonIdsOnly [7, 0] 1 2 0 = (some [7], none, none) := by
  refine ⟨by decide, ?_⟩
  rw [c4_no_partial_synthesis ftPolygonIdsOnly [7, 0] 1 2 0 (by decide)]
  decide

/-- C5: decoding inverts delta-then-zig-zag encoding bit-exactly for the
three parallel arrays of quantized coordinates (each value at most 32767),
every array independently, in index order, for any length; moreover every
encoded delta fits one Uint16 element. -/
theorem c5_zigZagDelta_roundTrip (us vs hs : List Nat)
    (hu : ∀ a ∈ us, a ≤ 32767) (hv : ∀ a ∈ vs, a ≤ 32767) (hh : ∀ a ∈ hs, a ≤ 32767) :
    zigZagDeltaDecode3 (deltaZigZagEncode3 us vs hs) = (us, vs, hs) ∧
    (∀ x ∈ (deltaZigZagEncode3 us vs hs).1, x < 65536) ∧
    (∀ x ∈ (deltaZigZagEncode3 us vs hs).2.1, x < 65536) ∧
    (∀ x ∈ (deltaZigZagEncode3 us vs hs).2.2, x < 65536) := by
  refine ⟨?_, ?_, ?_, ?_⟩
  · unfold zigZagDeltaDecode3 deltaZigZagEncode3 zigZagDeltaDecodeList deltaZigZagEncodeList
    simp only
    rw [zigZagDeltaDecodeAux_encodeAux us 0 (fun a ha => by have := hu a ha; omega),
        zigZagDeltaDecodeAux_encodeAux vs 0 (fun a ha => by have := hv a ha; omega),
        zigZagDeltaDecodeAux_encodeAux hs 0 (fun a ha => by have := hh a ha; omega)]
  · intro x hx
    exact deltaZigZagEncodeAux_lt us 0 (by omega) hu x hx
  · intro x hx
    exact deltaZigZagEncodeAux_lt vs 0 (by omega) hv x hx
  · intro x hx
    exact deltaZigZagEncodeAux_lt hs 0 (by omega) hh x hx

/-- C5 witness: a concrete round trip of three quantized arrays. -/
theorem c5_zigZagDelta_roundTrip_witness :
    (∀ a ∈ [5, 3, 32767], a ≤ 32767) ∧ (∀ a ∈ [0, 1, 1], a ≤ 32767) ∧
    (∀ a ∈ ([] : List Nat), a ≤ 32767) ∧
    zigZagDeltaDecode3 (deltaZigZagEncode3 [5, 3, 32767] [0, 1, 1] []) =
      ([5, 3, 32767], [0, 1, 1], []) := by
  refine ⟨by decide, by decide, by decide, ?_⟩
  exact (c5_zigZagDelta_roundTrip [5, 3, 32767] [0, 1, 1] []
    (by decide) (by decide) (by decide)).1

/-- The polygon block can only fail with a TypeError. -/
theorem buildPolygons_error_eq {ft : FeatureTableJson} {bin bytes : List Nat}
    {off ibl pbl : Nat} {ids : Option (List Nat)} {mh Mh : Option ℚ} {c : Cart3} {r : Rect}
    {g : Bool} {n : Nat} {e : DecodeError}
    (h : buildPolygons ft bin bytes off ibl pbl ids mh Mh c r g n = .error e) :
    e = .typeError := by
  unfold buildPolygons at h
  split at h
  · split at h
    · simp at h
    · injection h with h2
      exact h2.symm
  · simp at h

/-- The polyline block can only fail with a TypeError. -/
theorem buildPolylines_error_eq {ft : FeatureTableJson} {bin bytes : List Nat}
    {off pbl : Nat} {ids : Option (List Nat)} {mh Mh : Option ℚ} {c : Cart3} {r : Rect}
    {n : Nat} {e : DecodeError}
    (h : buildPolylines ft bin bytes off pbl ids mh Mh c r n = .error e) :
    e = .typeError := by
  unfold buildPolylines at h
  split at h
  · split at h
    · simp at h
    · injection h with h2
      exact h2.symm
  · simp at h

/-- The point block can only fail with a TypeError. -/
theorem buildPoints_error_eq {bytes : List Nat} {off pbl : Nat}
    {ids : Option (List Nat)} {n : Nat} {e : DecodeError}
    (h : buildPoints bytes off pbl ids n = .error e) :
    e = .typeError := by
  unfold buildPoints at h
  split at h
  · split at h
    · injection h with h2
      exact h2.symm
    · simp at h
  · simp at h

/-- Once past the magic and version checks, the decoder can only fail with
the zero-length feature-table error or a TypeError: never with a magic or
version error. -/
theorem initContentBody_error_eq {bytes : List Nat} {off : Nat} {ft : FeatureTableJson}
    {rect : Rect} {e : DecodeError}
    (h : initContentBody bytes off ft rect = .error e) :
    e = .emptyFeatureTable ∨ e = .typeError := by
  simp only [initContentBody] at h
  split at h
  · simp at h
  · split at h
    · left
      injection h with h2
      exact h2.symm
    · split at h
      · simp at h
      · rename_i hmatch
        split at h
        · injection h with h2
          right
          rw [← h2]
          exact buildPolygons_error_eq (by assumption)
        · split at h
          · injection h with h2
            right
            rw [← h2]
            exact buildPolylines_error_eq (by assumption)
          · split at h
            · injection h with h2
              right
              rw [← h2]
              exact buildPoints_error_eq (by assumption)
            · simp at h

/-- C1: decoding fails with the invalid-magic error whenever the 4-byte magic
is not vctr (whatever the rest of the buffer holds, and before any content
state exists), fails with the unsupported-version error when the magic is
vctr but the version is not 1, and when magic is vctr and version is 1 the
header validation passes: no run can produce a magic or version error. -/
theorem c1_header_validation (bytes : List Nat) (off : Nat) (ft : FeatureTableJson)
    (rect : Rect) :
    (getMagic bytes off ≠ "vctr" →
      initContent bytes off ft rect = .error (.invalidMagic (getMagic bytes off))) ∧
    (getMagic bytes off = "vctr" → getUint32 bytes (off + 4) ≠ 1 →
      initContent bytes off ft rect = .error (.unsupportedVersion (getUint32 bytes (off + 4)))) ∧
    (getMagic bytes off = "vctr" → getUint32 bytes (off + 4) = 1 →
      ∀ m, initContent bytes off ft rect ≠ .error (.invalidMagic m)) ∧
    (getMagic bytes off = "vctr" → getUint32 bytes (off + 4) = 1 →
      ∀ v, initContent bytes off ft rect ≠ .error (.unsupportedVersion v)) := by
  refine ⟨?_, ?_, ?_, ?_⟩
  · intro h
    simp [initContent, h]
  · intro h1 h2
    simp [initContent, h1, h2]
  · intro h1 h2 m hcontra
    rw [show initContent bytes off ft rect = initContentBody bytes off ft rect by
      simp [initContent, h1, h2]] at hcontra
    rcases initContentBody_error_eq hcontra with h | h <;> exact DecodeError.noConfusion h
  · intro h1 h2 v hcontra
    rw [show initContent bytes off ft rect = initContentBody bytes off ft rect by
      simp [initContent, h1, h2]] at hcontra
    rcases initContentBody_error_eq hcontra with h | h <;> exact DecodeError.noConfusion h

/-- C1 witness: magic xxxx fails with the invalid-magic error, magic vctr
with version 2 fails with the unsupported-version error, and the valid
header passes validation. -/
theorem c1_header_validation_witness :
    getMagic bytesBadMagic 0 ≠ "vctr" ∧
    initContent bytesBadMagic 0 ftEmpty rect0 = .error (.invalidMagic (getMagic bytesBadMagic 0)) ∧
    getMagic bytesBadVersion 0 = "vctr" ∧ getUint32 bytesBadVersion 4 ≠ 1 ∧
    initContent bytesBadVersion 0 ftEmpty rect0 =
      .error (.unsupportedVersion (getUint32 bytesBadVersion 4)) ∧
    getMagic bytesEmptyTile 0 = "vctr" ∧ getUint32 bytesEmptyTile 4 = 1 ∧
    initContent bytesEmptyTile 0 ftEmpty rect0 ≠ .error (.invalidMagic "xxxx") ∧
    initContent bytesEmptyTile 0 ftEmpty rect0 ≠ .error (.unsupportedVersion 2) := by
  have hA := c1_header_validation bytesBadMagic 0 ftEmpty rect0
  have hB := c1_header_validation bytesBadVersion 0 ftEmpty rect0
  have hC := c1_header_validation bytesEmptyTile 0 ftEmpty rect0
  refine ⟨by decide, hA.1 (by decide), by decide, by decide, hB.2.1 (by decide) (by decide),
          by decide, by decide, hC.2.2.1 (by decide) (by decide) "xxxx",
          hC.2.2.2 (by decide) (by decide) 2⟩

/-- C2: a tile whose header byteLength field is 0 stops decoding right after
the header: the ready promise is resolved, featuresLength is 0, and no batch
table, primitive set or collection was allocated. -/
theorem c2_empty_tile (bytes : List Nat) (off : Nat) (ft : FeatureTableJson) (rect : Rect)
    (hm : getMagic bytes off = "vctr") (hv : getUint32 bytes (off + 4) = 1)
    (hb : getUint32 bytes (off + 8) = 0) :
    initContent bytes off ft rect = .ok emptyReadyState ∧
    emptyReadyState.readyResolved = true ∧
    featuresLength emptyReadyState = 0 ∧
    emptyReadyState.batchTable = none ∧
    emptyReadyState.polygons = none ∧
    emptyReadyState.polylines = none ∧
    emptyReadyState.billboardCollection = none ∧
    emptyReadyState.labelCollection = none ∧
    emptyReadyState.polylineCollection = none := by
  refine ⟨?_, rfl, rfl, rfl, rfl, rfl, rfl, rfl, rfl⟩
  simp [initContent, initContentBody, hm, hv, hb]

/-- C2 witness: the concrete 12-byte empty tile. -/
theorem c2_empty_tile_witness :
    getMagic bytesEmptyTile 0 = "vctr" ∧ getUint32 bytesEmptyTile 4 = 1 ∧
    getUint32 bytesEmptyTile 8 = 0 ∧
    initContent bytesEmptyTile 0 ftEmpty rect0 = .ok emptyReadyState ∧
    featuresLength emptyReadyState = 0 := by
  have h := c2_empty_tile bytesEmptyTile 0 ftEmpty rect0 (by decide) (by decide) (by decide)
  exact ⟨by decide, by decide, by decide, h.1, h.2.2.1⟩

/-- C6: when the feature table omits POLYLINE_WIDTHS, the polyline builder
receives a width array of length numberOfPolylines whose every entry is 2.0;
the absence is a fallback, not an error. -/
theorem c6_default_polyline_widths (ft : FeatureTableJson) (bin bytes : List Nat)
    (off len : Nat) (ids : Option (List Nat)) (mh Mh : Option ℚ) (c : Cart3) (r : Rect)
    (nL : Nat) (ref : BinaryBodyReference)
    (hn : 0 < nL) (hw : ft.POLYLINE_WIDTHS = none) (hc : ft.POLYLINE_COUNT = some ref) :
    buildPolylines ft bin bytes off len ids mh Mh c r nL =
      .ok (some { positions := readUint16Array bytes off (len / 2),
                  widths := List.replicate nL 2,
                  counts := readUint32Array bin ref.byteOffset nL,
                  batchIds := ids, minimumHeight := mh, maximumHeight := Mh,
                  center := c, rectangle := r }, off + len) ∧
    (List.replicate nL (2 : ℚ)).length = nL ∧
    (∀ w ∈ List.replicate nL (2 : ℚ), w = 2) := by
  refine ⟨?_, List.length_replicate nL 2, fun w hw2 => List.eq_of_mem_replicate hw2⟩
  simp only [buildPolylines, hn, if_true, hw, hc]

/-- C6 witness: three polylines and no POLYLINE_WIDTHS key: the builder
receives widths [2, 2, 2]. -/
theorem c6_default_polyline_widths_witness :
    0 < 3 ∧ ftPolylineNoWidths.POLYLINE_WIDTHS = none ∧
    ftPolylineNoWidths.POLYLINE_COUNT = some { byteOffset := 0 } ∧
    buildPolylines ftPolylineNoWidths [] [] 0 0 none none none { x := 0, y := 0, z := 0 }
        rect0 3 =
      .ok (some { positions := [], widths := [2, 2, 2], counts := [0, 0, 0],
                  batchIds := none, minimumHeight := none, maximumHeight := none,
                  center := { x := 0, y := 0, z := 0 }, rectangle := rect0 }, 0) := by
  refine ⟨by decide, by decide, by decide, ?_⟩
  rw [(c6_default_polyline_widths ftPolylineNoWidths [] [] 0 0 none none none
    { x := 0, y := 0, z := 0 } rect0 3 { byteOffset := 0 } (by decide) (by decide) (by decide)).1]
  decide

/-- C7: applying an undefined style resets every feature: afterwards each
feature's color is white, pointOutlineColor black, pointOutlineWidth 0,
labelOutlineWidth 1 and anchorLineEnabled false. -/
theorem c7_clearStyle_defaults (fs : FrameState) (features : List Feature) (g : Feature)
    (hg : g ∈ applyStyle fs none features) :
    g.color = Color.WHITE ∧ g.pointOutlineColor = Color.BLACK ∧
    g.pointOutlineWidth = 0 ∧ g.labelOutlineWidth = 1 ∧ g.anchorLineEnabled = false := by
  simp only [applyStyle, List.mem_map] at hg
  obtain ⟨f, _, rfl⟩ := hg
  exact ⟨rfl, rfl, rfl, rfl, rfl⟩

/-- C7 witness: a three-feature tile reset through applyStyle with no style. -/
theorem c7_clearStyle_defaults_witness :
    clearStyleFeature featureDemo ∈
      applyStyle fs0 none [featureDemo, featureDemo, featureDemo] ∧
    (clearStyleFeature featureDemo).color = Color.WHITE ∧
    (clearStyleFeature featureDemo).pointOutlineColor = Color.BLACK ∧
    (clearStyleFeature featureDemo).pointOutlineWidth = 0 ∧
    (clearStyleFeature featureDemo).labelOutlineWidth = 1 ∧
    (clearStyleFeature featureDemo).anchorLineEnabled = false := by
  have hg : clearStyleFeature featureDemo ∈
      applyStyle fs0 none [featureDemo, featureDemo, featureDemo] := by
    simp [applyStyle]
  exact ⟨hg, c7_clearStyle_defaults fs0 [featureDemo, featureDemo, featureDemo]
    (clearStyleFeature featureDemo) hg⟩

/-- C8 (code refutation): with a style defining distanceDisplayCondition
(evaluating to (10, 20)), applyStyle leaves the feature's
distanceDisplayCondition property untouched; the evaluated condition lands on
the misspelled property distanceDisplatCondition written by source line 667. -/
theorem c8_distanceDisplayCondition_dropped :
    ddcStyle.distanceDisplayCondition.isSome = true ∧
    (applyStyleToFeature fs0 ddcStyle featureDemo).distanceDisplayCondition =
      featureDemo.distanceDisplayCondition ∧
    (applyStyleToFeature fs0 ddcStyle featureDemo).distanceDisplayCondition ≠
      some { near := 10, far := 20 } ∧
    (applyStyleToFeature fs0 ddcStyle featureDemo).distanceDisplatCondition =
      some { near := 10, far := 20 } := by
  refine ⟨rfl, ?_, ?_, ?_⟩ <;> decide

/-- C9: destroying a content instance whose readiness has not resolved is a
total operation, after which isDestroyed reports true and the polygon set,
polyline set, the three collections and the batch table are all released. -/
theorem c9_destroy_before_ready (c : ContentState) (_h : c.readyResolved = false) :
    isDestroyed (destroy c) = true ∧
    (destroy c).polygons = none ∧ (destroy c).polylines = none ∧
    (destroy c).billboardCollection = none ∧ (destroy c).labelCollection = none ∧
    (destroy c).polylineCollection = none ∧ (destroy c).batchTable = none := by
  exact ⟨rfl, rfl, rfl, rfl, rfl, rfl, rfl⟩

/-- C9 witness: a live not-yet-ready content owning a polygon set and a batch
table. -/
theorem c9_destroy_before_ready_witness :
    cLive.readyResolved = false ∧
    isDestroyed (destroy cLive) = true ∧
    (destroy cLive).polygons = none ∧ (destroy cLive).batchTable = none := by
  have h := c9_destroy_before_ready cLive rfl
  exact ⟨rfl, h.1, h.2.1, h.2.2.2.2.2.2⟩

/-- C10: pointsLength of any successfully decoded content is 0, whatever the
tile declared. -/
theorem c10_pointsLength_zero (bytes : List Nat) (off : Nat) (ft : FeatureTableJson)
    (rect : Rect) (c : ContentState) (_h : initContent bytes off ft rect = .ok c) :
    pointsLength c = 0 :=
  rfl

/-- C10 witness: a tile declaring POINTS_LENGTH = 2 decodes into two
billboard/label records, yet pointsLength still reports 0. -/
theorem c10_pointsLength_zero_witness :
    initContent bytesPoints 0 ftPoints rect0 = .ok cPointsDemo ∧
    cPointsDemo.billboardCollection =
      some [{ u := 1, v := 2, height := 3, batchIndex := 0 },
            { u := 2, v := 4, height := 6, batchIndex := 1 }] ∧
    pointsLength cPointsDemo = 0 := by
  have h : initContent bytesPoints 0 ftPoints rect0 = .ok cPointsDemo := by decide
  exact ⟨h, rfl, c10_pointsLength_zero bytesPoints 0 ftPoints rect0 cPointsDemo h⟩

end Vctr
